import Mathlib

/-!
Shallow embedding of the operator flow orchestration engine of the
sla-digital-api-integration repository, together with theorems that settle
the specification claims about it.

Conventions of the embedding:
- JavaScript strings are modelled as lists of characters (`Str`).
- JavaScript `Map` objects keyed by strings are modelled as association
  lists with `mapGet` / `mapSet` / `mapDel` mirroring `get` / `set` / `delete`.
- `Date.now()` is modelled by an explicit `now : Nat` parameter (milliseconds).
- The upstream SLA API is modelled by an `Upstream` oracle value passed to
  each function that performs at most one upstream call; functions report
  whether the upstream call was reached.
- Exceptions thrown by the JavaScript code are modelled with `Except`.
- The operator capability table (`operators.config.js`, configuration data)
  is modelled by passing the relevant `OperatorConfig` record explicitly.
-/

namespace SLA

/-- JavaScript strings, modelled as lists of characters. -/
abbrev Str := List Char

/-- Embed a Lean string literal into the model representation. -/
def str (s : String) : Str := s.data

/-- JavaScript `String.prototype.startsWith`. -/
def strStartsWith (s p : Str) : Bool := p.isPrefixOf s

/-- JavaScript truthiness of an optional string: `undefined` and the empty
string are falsy, every other string is truthy. -/
def strTruthy : Option Str → Bool
  | none => false
  | some s => !s.isEmpty

/-- JavaScript `a || b` on optional strings (first operand when truthy). -/
def jsOrOpt (a b : Option Str) : Option Str :=
  if strTruthy a then a else b

/-- JavaScript `a || d` where `d` is a string literal default. -/
def jsOrDefault (a : Option Str) (d : Str) : Str :=
  match a with
  | some s => if s.isEmpty then d else s
  | none => d

/-- Lookup in a JavaScript `Map` keyed by strings (`map.get(k)`). -/
def mapGet {α : Type} (st : List (Str × α)) (k : Str) : Option α :=
  (st.find? (fun e => e.1 == k)).map (·.2)

/-- Deletion from a JavaScript `Map` (`map.delete(k)`). -/
def mapDel {α : Type} (st : List (Str × α)) (k : Str) : List (Str × α) :=
  st.filter (fun e => !(e.1 == k))

/-- Insertion into a JavaScript `Map` (`map.set(k, v)`): the binding for `k`
is replaced. -/
def mapSet {α : Type} (st : List (Str × α)) (k : Str) (v : α) : List (Str × α) :=
  (k, v) :: mapDel st k

theorem mapGet_set_same {α : Type} (st : List (Str × α)) (k : Str) (v : α) :
    mapGet (mapSet st k v) k = some v := by
  simp [mapGet, mapSet, List.find?]

theorem mapGet_del_same {α : Type} (st : List (Str × α)) (k : Str) :
    mapGet (mapDel st k) k = none := by
  induction st with
  | nil => rfl
  | cons e rest ih =>
    by_cases h : e.1 = k
    · simp [mapDel, mapGet, h]
    · have hb : (e.1 == k) = false := by simpa using h
      simp only [mapDel, List.filter, hb, Bool.not_false, mapGet, List.find?] at ih ⊢
      exact ih

theorem mapDel_set_same {α : Type} (st : List (Str × α)) (k : Str) (v : α) :
    mapDel (mapSet st k v) k = mapDel st k := by
  simp [mapDel, mapSet, List.filter]

/-- One row of the operator capability table (`operators.config.js`).
Only the fields consulted by the orchestration core are modelled. -/
structure OperatorConfig where
  flow : Str
  statusResponse : Option Str := none
  usesACR : Bool := false
  asyncResponse : Bool := false
  webhookBased : Bool := false
  noSMS : Bool := false
  requiresAmount : Bool := false
  requiresFraudToken : Bool := false
  requiresCorrelator : Bool := false
  requiresTransactionId : Bool := false
  suspendOnInsufficientFunds : Bool := false
  noChargeAPI : Bool := false
  noDeleteAPI : Bool := false
  deriving DecidableEq, Repr

/-- JavaScript `String.prototype.split` with a one-character separator. -/
def jsSplit (sep : Char) : Str → List Str
  | [] => [[]]
  | c :: rest =>
    if c = sep then
      [] :: jsSplit sep rest
    else
      match jsSplit sep rest with
      | [] => [[c]]
      | h :: t => (c :: h) :: t

theorem jsSplit_ne_nil (sep : Char) (s : Str) : jsSplit sep s ≠ [] := by
  cases s with
  | nil => simp [jsSplit]
  | cons c rest =>
    simp only [jsSplit]
    by_cases h : c = sep
    · simp [h]
    · simp only [h, if_false]
      cases jsSplit sep rest <;> simp

theorem jsSplit_head (sep : Char) (s : Str) :
    (jsSplit sep s).head? = some (s.takeWhile (fun c => !(c == sep))) := by
  induction s with
  | nil => rfl
  | cons c rest ih =>
    simp only [jsSplit, List.takeWhile]
    by_cases h : c = sep
    · simp [h]
    · have hb : (c == sep) = false := by simpa using h
      simp only [h, if_false, hb, Bool.not_false]
      rcases he : jsSplit sep rest with _ | ⟨hd, tl⟩
      · exact absurd he (jsSplit_ne_nil sep rest)
      · rw [he] at ih
        simp only [List.head?] at ih ⊢
        rw [Option.some_inj] at ih
        simp [ih]

theorem jsSplit_sep_free (sep : Char) (s : Str) (h : sep ∉ s) :
    jsSplit sep s = [s] := by
  induction s with
  | nil => rfl
  | cons c rest ih =>
    have hc : ¬ c = sep := fun hh => h (hh ▸ List.mem_cons_self c rest)
    have hrest : sep ∉ rest := fun hh => h (List.mem_cons_of_mem c hh)
    simp [jsSplit, hc, ih hrest]

theorem jsSplit_append (sep : Char) (p q : Str) (hp : sep ∉ p) :
    jsSplit sep (p ++ sep :: q) = p :: jsSplit sep q := by
  induction p with
  | nil => simp [jsSplit]
  | cons c rest ih =>
    have hc : ¬ c = sep := fun hh => hp (hh ▸ List.mem_cons_self c rest)
    have hrest : sep ∉ rest := fun hh => hp (List.mem_cons_of_mem c hh)
    simp only [List.cons_append, jsSplit, hc, if_false, List.append_eq, ih hrest]

/-- The `transaction` sub-object of an upstream payload. -/
structure Transaction where
  status : Option Str := none
  deriving DecidableEq, Repr

/-- The `success` object of an upstream payload or webhook notification.
`originalStatus` models the `_originalStatus` side property, absent (`none`)
on raw upstream payloads and only ever added by the response normalizer. -/
structure SuccessData where
  type : Option Str := none
  transaction : Option Transaction := none
  msisdn : Option Str := none
  uuid : Option Str := none
  mode : Option Str := none
  correlator : Option Str := none
  transaction_id : Option Str := none
  operator : Option Str := none
  originalStatus : Option Str := none
  deriving DecidableEq, Repr

/-- The `error` object of an upstream payload or webhook notification. -/
structure ErrorData where
  category : Option Str := none
  code : Option Str := none
  message : Option Str := none
  type : Option Str := none
  transaction : Option Transaction := none
  operator : Option Str := none
  uuid : Option Str := none
  msisdn : Option Str := none
  deriving DecidableEq, Repr

/-- A raw upstream response as seen by `SLAClient.handleResponse`. -/
structure RawResponse where
  success : Option SuccessData := none
  error : Option ErrorData := none
  status : Option Str := none
  deriving DecidableEq, Repr

/-- ResponseHandler.extractACRIdentifier: split the ACR on a colon and keep
the first 30 characters of the second field (`parts[1].substring(0, 30)`);
the whole string is returned when it contains no colon. -/
def extractACRIdentifier (acr : Str) : Str :=
  match jsSplit ':' acr with
  | _ :: p :: _ => p.take 30
  | _ => acr

/-- ResponseHandler.isRetryableError: fixed retryable error-code set. -/
def isRetryableError (code : Str) : Bool :=
  [str "3001", str "3002", str "5001", str "8001"].contains code

/-- The normalized result shape produced by
`ResponseHandler.handleSuccessResponse`.  Metadata fields that carry only
timestamps and configuration echoes are not modelled. -/
structure Normalized where
  success : Bool := true
  operator : Str
  type : Option Str := none
  data : SuccessData
  hasACR : Bool := false
  acr : Option Str := none
  acrIdentifier : Option Str := none
  isAsync : Bool := false
  requiresWebhook : Bool := false
  deriving DecidableEq, Repr

/-- Step one of ResponseHandler.handleSuccessResponse (the block commented
"Zain operators: Convert SUCCESS to CHARGED for consistency", lines 57-63):
rewrite a `SUCCESS` transaction status to `CHARGED` when the capability marks
the alternate vocabulary, retaining the original under `_originalStatus`. -/
def zainStatusRewrite (config : OperatorConfig) (data0 : SuccessData) : SuccessData :=
  if config.statusResponse = some (str "SUCCESS") then
    match data0.transaction with
    | some t =>
      if t.status = some (str "SUCCESS") then
        { data0 with
          transaction := some { t with status := some (str "CHARGED") },
          originalStatus := some (str "SUCCESS") }
      else data0
    | none => data0
  else data0

/-- Step two of ResponseHandler.handleSuccessResponse (the block commented
"Telenor operators: Mark ACR presence", lines 65-72). -/
def acrMark (config : OperatorConfig) (n : Normalized) : Normalized :=
  if config.usesACR && strTruthy n.data.msisdn then
    match n.data.msisdn with
    | some m =>
      if strStartsWith m (str "telenor-") then
        { n with
          hasACR := true
          acr := some m
          acrIdentifier := some (extractACRIdentifier m) }
      else n
    | none => n
  else n

/-- Step three of ResponseHandler.handleSuccessResponse (the block commented
"UK operators: Mark as async", lines 74-78). -/
def asyncMark (config : OperatorConfig) (n : Normalized) : Normalized :=
  if config.asyncResponse || config.webhookBased then
    { n with isAsync := true, requiresWebhook := true }
  else n

/-- ResponseHandler.handleSuccessResponse (src/services/core/ResponseHandler.js,
lines 44-92): copy the success payload, rewrite a `SUCCESS` transaction status
to `CHARGED` for operators whose capability marks the alternate vocabulary
(retaining the original under `_originalStatus`), mark ACR presence for
operators using anonymous references, and mark async operators. -/
def handleSuccessResponse (config : OperatorConfig) (operator : Str)
    (success : SuccessData) (requestType : Option Str) : Normalized :=
  let data1 := zainStatusRewrite config success
  asyncMark config (acrMark config
    { operator := operator
      type := jsOrOpt success.type requestType
      data := data1 })

/-- The error result shape produced by `ResponseHandler.handleErrorResponse`
(human-readable detail strings and timestamps are not modelled). -/
structure ErrorResult where
  operator : Str
  category : Option Str := none
  code : Option Str := none
  isRetryable : Bool := false
  deriving DecidableEq, Repr

/-- ResponseHandler.handleErrorResponse (lines 97-121). -/
def handleErrorResponse (operator : Str) (e : ErrorData) : ErrorResult :=
  { operator := operator
    category := e.category
    code := e.code
    isRetryable :=
      match e.code with
      | some c => isRetryableError c
      | none => false }

/-- The possible shapes returned by `ResponseHandler.processResponse`. -/
inductive Processed where
  | errorResult (r : ErrorResult)
  | normalized (n : Normalized)
  | pending (r : RawResponse)
  | passthrough (r : RawResponse)
  deriving DecidableEq, Repr

/-- ResponseHandler.processResponse (lines 17-39): dispatch on the payload
shape (error, success, pending, other). -/
def processResponse (config : OperatorConfig) (operator : Str)
    (response : RawResponse) (requestType : Option Str) : Processed :=
  match response.error with
  | some e => .errorResult (handleErrorResponse operator e)
  | none =>
    match response.success with
    | some s => .normalized (handleSuccessResponse config operator s requestType)
    | none =>
      if response.status = some (str "PENDING") then .pending response
      else .passthrough response

/-- SLAClient.handleResponse (src/services/core/SLAClient.js, lines 166-195):
rewrite a `SUCCESS` transaction status to `CHARGED` in place for operators
whose capability marks the alternate vocabulary.  The `acrMappings` and
`pendingOperations` side stores written here do not alter the returned
response and are not modelled. -/
def handleResponse (config : OperatorConfig) (response : RawResponse) : RawResponse :=
  if config.statusResponse = some (str "SUCCESS") then
    match response.success with
    | some s =>
      match s.transaction with
      | some t =>
        if t.status = some (str "SUCCESS") then
          { response with
            success := some ({ s with transaction := some ({ t with status := some (str "CHARGED") } : Transaction) } : SuccessData) }
        else response
      | none => response
    | none => response
  else response

/-- Projection used to observe the `_originalStatus` side field of a
normalized success result. -/
def originalStatusOfProcessed : Processed → Option (Option Str)
  | .normalized n => some n.data.originalStatus
  | _ => none

/-- Projection used to observe the canonical transaction status of a
normalized success result. -/
def statusOfProcessed : Processed → Option (Option Str)
  | .normalized n => some (n.data.transaction.bind (·.status))
  | _ => none

/-- PIN metadata stored per (operator, msisdn) key (PINFlow.storePINMetadata,
src/services/flows/PINFlow.js lines 107-111). -/
structure PinMeta where
  sentAt : Nat
  expiresAt : Nat
  attempts : Nat
  deriving DecidableEq, Repr

/-- The `activePINs` map of `PINFlow`. -/
abbrev PinStore := List (Str × PinMeta)

/-- Key construction used by the PIN metadata map (PINFlow.js line 319). -/
def pinKey (operator msisdn : Str) : Str := operator ++ str "_" ++ msisdn

/-- PINFlow.storePINMetadata (lines 318-321). -/
def storePINMetadata (st : PinStore) (msisdn operator : Str) (m : PinMeta) : PinStore :=
  mapSet st (pinKey operator msisdn) m

/-- PINFlow.getPINMetadata (lines 323-326). -/
def getPINMetadata (st : PinStore) (msisdn operator : Str) : Option PinMeta :=
  mapGet st (pinKey operator msisdn)

/-- PINFlow.updatePINMetadata (lines 328-331). -/
def updatePINMetadata (st : PinStore) (msisdn operator : Str) (m : PinMeta) : PinStore :=
  mapSet st (pinKey operator msisdn) m

/-- PINFlow.clearPINMetadata (lines 333-336). -/
def clearPINMetadata (st : PinStore) (msisdn operator : Str) : PinStore :=
  mapDel st (pinKey operator msisdn)

/-- The PIN metadata created on successful PIN generation
(PINFlow.generateAndSendPIN, lines 107-111): a fixed 120-second window and
attempt count zero. -/
def mkPinMetadata (now : Nat) : PinMeta :=
  { sentAt := now, expiresAt := now + 120 * 1000, attempts := 0 }

/-- An upstream API response as observed by the flows: the flows only test
`response.success` for truthiness. -/
structure ApiResponse where
  success : Bool
  msisdn : Option Str := none
  uuid : Option Str := none
  deriving DecidableEq, Repr

/-- The behaviour of the upstream gateway on the single call a flow function
may make: either a response object or a thrown transport error. -/
inductive Upstream where
  | resp (r : ApiResponse)
  | thrown (msg : Str)
  deriving DecidableEq, Repr

/-- Whether an upstream behaviour is a failed completion: a thrown error or a
response whose `success` field is falsy. -/
def isFailedUpstream : Upstream → Bool
  | .thrown _ => true
  | .resp r => !r.success

/-- The errors thrown by the PIN completion paths (PINFlow.js). -/
inductive PinError where
  /-- Thrown message: No PIN request found. Please generate a new PIN. -/
  | noPendingCode
  /-- Thrown message: PIN expired. Please generate a new PIN. -/
  | codeExpired
  /-- Thrown message: Maximum PIN attempts exceeded. Please generate a new PIN. -/
  | attemptsExhausted
  /-- Thrown message (charge path only): PIN expired or not found. -/
  | pinExpiredOrNotFound
  /-- An exception thrown by the upstream call, rethrown by the flow. -/
  | upstreamThrown (msg : Str)
  deriving DecidableEq, Repr

/-- Result of one PIN completion call: the returned value or thrown error,
the PIN store after the call, whether the upstream completion request was
submitted, and whether a welcome SMS send was attempted. -/
structure PinCompleteResult where
  outcome : Except PinError ApiResponse
  store : PinStore
  completionCalled : Bool
  smsAttempted : Bool
  deriving Repr

/-- PINFlow.completeSubscriptionWithPIN (lines 120-192).  Looks up the PIN
metadata (absent entry throws), deletes the entry and throws when strictly
past `expiresAt`, increments the attempt counter in place (the stored object
is aliased, so the increment persists in the map), deletes the entry and
throws once the counter exceeds 3, and otherwise submits the completion
request upstream.  On upstream success the entry is deleted and a welcome SMS
is attempted unless the capability disables messaging; on upstream failure
the entry (with the incremented counter) is retained. -/
def completeSubscriptionWithPIN (config : OperatorConfig) (st : PinStore)
    (operator msisdn : Str) (now : Nat) (upstream : Upstream) : PinCompleteResult :=
  match getPINMetadata st msisdn operator with
  | none => ⟨.error .noPendingCode, st, false, false⟩
  | some pinMeta =>
    if now > pinMeta.expiresAt then
      ⟨.error .codeExpired, clearPINMetadata st msisdn operator, false, false⟩
    else
      let pinMeta2 := { pinMeta with attempts := pinMeta.attempts + 1 }
      let st2 := updatePINMetadata st msisdn operator pinMeta2
      if pinMeta2.attempts > 3 then
        ⟨.error .attemptsExhausted, clearPINMetadata st2 msisdn operator, false, false⟩
      else
        match upstream with
        | .thrown m =>
          ⟨.error (.upstreamThrown m), updatePINMetadata st2 msisdn operator pinMeta2, true, false⟩
        | .resp r =>
          if r.success then
            ⟨.ok r, clearPINMetadata st2 msisdn operator, true, !config.noSMS⟩
          else
            ⟨.ok r, st2, true, false⟩

/-- PINFlow.completeChargeWithPIN (lines 237-266).  A missing or expired
entry throws a single combined error without deleting anything; otherwise the
charge request is submitted upstream, and the entry is deleted only on
upstream success.  The attempt counter is never touched on this path. -/
def completeChargeWithPIN (st : PinStore)
    (operator msisdn : Str) (now : Nat) (upstream : Upstream) : PinCompleteResult :=
  match getPINMetadata st msisdn operator with
  | none => ⟨.error .pinExpiredOrNotFound, st, false, false⟩
  | some pinMeta =>
    if now > pinMeta.expiresAt then
      ⟨.error .pinExpiredOrNotFound, st, false, false⟩
    else
      match upstream with
      | .thrown m => ⟨.error (.upstreamThrown m), st, true, false⟩
      | .resp r =>
        if r.success then
          ⟨.ok r, clearPINMetadata st msisdn operator, true, false⟩
        else
          ⟨.ok r, st, true, false⟩

/-- A checkout session as stored in the `pendingCheckouts` map
(CheckoutFlow.createCheckoutSession, src/services/flows/CheckoutFlow.js
lines 378-400): caller parameters plus creation time and a fixed ten-minute
expiry. -/
structure CheckoutSession where
  operator : Str
  merchant : Option Str := none
  campaign : Option Str := none
  amount : Option Str := none
  currency : Option Str := none
  language : Option Str := none
  trial : Option Str := none
  createdAt : Nat
  expiresAt : Nat
  deriving DecidableEq, Repr

/-- The `pendingCheckouts` map of `CheckoutFlow`, keyed by session id. -/
abbrev SessionStore := List (Str × CheckoutSession)

/-- The session record built by CheckoutFlow.createCheckoutSession:
`expiresAt` is creation time plus ten minutes.  The random session id is
modelled as a parameter of the caller. -/
def mkCheckoutSession (operator : Str) (merchant campaign amount currency
    language trial : Option Str) (now : Nat) : CheckoutSession :=
  { operator := operator, merchant := merchant, campaign := campaign
    amount := amount, currency := currency, language := language
    trial := trial, createdAt := now, expiresAt := now + 10 * 60 * 1000 }

/-- CheckoutFlow.createCheckoutSession, store update part (line 389). -/
def createCheckoutSession (st : SessionStore) (sessionId : Str)
    (s : CheckoutSession) : SessionStore :=
  mapSet st sessionId s

/-- CheckoutFlow.getCheckoutSession (lines 402-404): a plain map lookup; the
stored expiry is not consulted. -/
def getCheckoutSession (st : SessionStore) (sessionId : Str) : Option CheckoutSession :=
  mapGet st sessionId

/-- CheckoutFlow.clearCheckoutSession (lines 406-408). -/
def clearCheckoutSession (st : SessionStore) (sessionId : Str) : SessionStore :=
  mapDel st sessionId

/-- The body of the timer scheduled by createCheckoutSession (lines 392-397):
delete the session if it is still present. -/
def checkoutCleanupTimer (st : SessionStore) (sessionId : Str) : SessionStore :=
  if (mapGet st sessionId).isSome then mapDel st sessionId else st

/-- Token normalization performed inline by both checkout completion paths
(CheckoutFlow.js lines 256-258 and 316-318): prepend the `TOKEN:` prefix
when absent. -/
def normalizeToken (token : Str) : Str :=
  if strStartsWith token (str "TOKEN:") then token else str "TOKEN:" ++ token

/-- Parameters of the completion request submitted upstream by the checkout
completion paths. -/
structure SubscriptionParams where
  msisdn : Str
  campaign : Option Str := none
  merchant : Option Str := none
  language : Str
  trial : Option Str := none
  amount : Option Str := none
  currency : Option Str := none
  deriving DecidableEq, Repr

/-- Errors thrown by the checkout completion paths. -/
inductive CheckoutError where
  /-- Thrown message: Checkout session not found or expired. -/
  | sessionNotFound
  /-- An exception thrown by the upstream call, rethrown by the flow. -/
  | upstreamThrown (msg : Str)
  deriving DecidableEq, Repr

/-- Result of one checkout completion call: the returned value or thrown
error, the session store after the call, the completion request submitted
upstream (`none` when the upstream call was never reached), and whether a
welcome SMS send was attempted. -/
structure CheckoutCompleteResult where
  outcome : Except CheckoutError ApiResponse
  store : SessionStore
  request : Option SubscriptionParams
  smsAttempted : Bool
  deriving Repr

/-- CheckoutFlow.completeCheckoutSubscription (lines 252-309): normalize the
token, look up the session (absent entry throws), submit the subscription
request with the token as subject, and on upstream success delete the session
and attempt the welcome SMS unless the capability disables messaging. -/
def completeCheckoutSubscription (config : OperatorConfig) (st : SessionStore)
    (token sessionId : Str) (upstream : Upstream) : CheckoutCompleteResult :=
  let token := normalizeToken token
  match getCheckoutSession st sessionId with
  | none => ⟨.error .sessionNotFound, st, none, false⟩
  | some session =>
    let subscriptionParams : SubscriptionParams :=
      { msisdn := token
        campaign := session.campaign
        merchant := session.merchant
        language := jsOrDefault session.language (str "en")
        trial := session.trial }
    match upstream with
    | .thrown m => ⟨.error (.upstreamThrown m), st, some subscriptionParams, false⟩
    | .resp r =>
      if r.success then
        ⟨.ok r, clearCheckoutSession st sessionId, some subscriptionParams, !config.noSMS⟩
      else
        ⟨.ok r, st, some subscriptionParams, false⟩

/-- CheckoutFlow.completeCheckoutCharge (lines 314-347): same shape as the
subscription path but submitting a charge request with the session amount and
currency, and with no welcome SMS. -/
def completeCheckoutCharge (st : SessionStore)
    (token sessionId : Str) (upstream : Upstream) : CheckoutCompleteResult :=
  let token := normalizeToken token
  match getCheckoutSession st sessionId with
  | none => ⟨.error .sessionNotFound, st, none, false⟩
  | some session =>
    let chargeParams : SubscriptionParams :=
      { msisdn := token
        campaign := session.campaign
        merchant := session.merchant
        language := jsOrDefault session.language (str "en")
        amount := session.amount
        currency := session.currency }
    match upstream with
    | .thrown m => ⟨.error (.upstreamThrown m), st, some chargeParams, false⟩
    | .resp r =>
      if r.success then
        ⟨.ok r, clearCheckoutSession st sessionId, some chargeParams, false⟩
      else
        ⟨.ok r, st, some chargeParams, false⟩

/-- A flow reference as stored in the `activeFlows` map of `FlowManager`
(storeFlowReference, src/services/flows/FlowManager.js lines 343-356). -/
structure FlowRef where
  type : Str
  sessionId : Option Str := none
  expectingWebhook : Bool := false
  expectingACR : Bool := false
  expectingNotification : Bool := false
  operator : Str := []
  createdAt : Nat := 0
  expiresAt : Nat := 0
  deriving DecidableEq, Repr

/-- The `activeFlows` map of `FlowManager`. -/
abbrev FlowStore := List (Str × FlowRef)

/-- Key construction used by the flow reference map (FlowManager.js line 344);
an absent correlation key interpolates as the text `undefined`. -/
def flowKey (operator : Str) (key : Option Str) : Str :=
  operator ++ str "_" ++ key.getD (str "undefined")

/-- FlowManager.storeFlowReference (lines 343-356): store the data under the
key with creation time and a fixed thirty-minute expiry. -/
def storeFlowReference (st : FlowStore) (operator : Str) (key : Option Str)
    (data : FlowRef) (now : Nat) : FlowStore :=
  mapSet st (flowKey operator key)
    { data with operator := operator, createdAt := now, expiresAt := now + 30 * 60 * 1000 }

/-- FlowManager.getFlowReference (lines 358-361): a plain map lookup; the
stored expiry is not consulted. -/
def getFlowReference (st : FlowStore) (operator : Str) (key : Option Str) : Option FlowRef :=
  mapGet st (flowKey operator key)

/-- FlowManager.clearFlowReference (lines 363-366). -/
def clearFlowReference (st : FlowStore) (operator : Str) (key : Option Str) : FlowStore :=
  mapDel st (flowKey operator key)

/-- The body of the timer scheduled by storeFlowReference (lines 353-355):
unconditionally delete the key. -/
def flowCleanupTimer (st : FlowStore) (operator : Str) (key : Option Str) : FlowStore :=
  mapDel st (flowKey operator key)

/-- Caller-supplied parameters of a flow initiation. -/
structure FlowParams where
  msisdn : Option Str := none
  campaign : Option Str := none
  merchant : Option Str := none
  template : Option Str := none
  language : Option Str := none
  amount : Option Str := none
  fraud_token : Option Str := none
  trial : Option Str := none
  correlator : Option Str := none
  deriving DecidableEq, Repr

/-- The result object returned by the flow initiation handlers. -/
structure FlowResult where
  success : Bool
  action : Option Str := none
  fraudScriptRequired : Bool := false
  expiresIn : Option Nat := none
  deriving DecidableEq, Repr

/-- Errors thrown on the flow initiation paths. -/
inductive FlowError where
  /-- Thrown message: PIN flow not supported / PIN API not supported. -/
  | unsupportedProtocol
  /-- Thrown message: Amount is required for PIN generation. -/
  | missingAmount
  /-- Thrown message: Fraud token is required / Fraud token required for Mobily KSA. -/
  | missingFraudToken
  /-- Thrown message: PIN generation failed. -/
  | pinGenerationFailed
  /-- An exception thrown by the upstream call, rethrown by the flow. -/
  | upstreamThrown (msg : Str)
  deriving DecidableEq, Repr

/-- SLAClient.supportsPINAPI (src/services/core/SLAClient.js lines 362-370). -/
def supportsPINAPI (config : OperatorConfig) : Bool :=
  config.flow == str "pin_api_allowed" ||
  config.flow == str "checkout_or_pin" ||
  config.flow == str "pin_with_fraud_prevention" ||
  config.flow == str "checkout_or_api"

/-- SLAClient.generatePIN (lines 336-357): protocol and precondition checks,
then the upstream PIN request.  The second component counts upstream calls
made during the invocation. -/
def generatePIN (config : OperatorConfig) (params : FlowParams)
    (upstream : Upstream) : Except FlowError ApiResponse × Nat :=
  if !supportsPINAPI config then (.error .unsupportedProtocol, 0)
  else if config.requiresAmount && !strTruthy params.amount then (.error .missingAmount, 0)
  else if config.requiresFraudToken && !strTruthy params.fraud_token then
    (.error .missingFraudToken, 0)
  else
    match upstream with
    | .thrown m => (.error (.upstreamThrown m), 1)
    | .resp r => (.ok r, 1)

/-- PINFlow.generateAndSendPIN (src/services/flows/PINFlow.js lines 67-115):
the Mobily KSA fraud-token precondition, the upstream PIN request, and on
success the creation of the 120-second PIN metadata entry. -/
def generateAndSendPIN (config : OperatorConfig) (operator : Str)
    (params : FlowParams) (now : Nat) (upstream : Upstream) (st : PinStore) :
    Except FlowError ApiResponse × PinStore × Nat :=
  if operator == str "mobily-sa" && !strTruthy params.fraud_token then
    (.error .missingFraudToken, st, 0)
  else
    match generatePIN config params upstream with
    | (.ok r, n) =>
      if r.success then
        (.ok r, storePINMetadata st (params.msisdn.getD (str "undefined")) operator
          (mkPinMetadata now), n)
      else (.ok r, st, n)
    | (.error e, n) => (.error e, st, n)

/-- PINFlow.executeSubscriptionFlow (lines 19-62): protocol check, PIN
generation (with the amount forwarded only for capabilities requiring it),
and the `AWAIT_PIN_ENTRY` result carrying the 120-second window. -/
def executeSubscriptionFlow (config : OperatorConfig) (operator : Str)
    (params : FlowParams) (now : Nat) (upstream : Upstream) (st : PinStore) :
    Except FlowError FlowResult × PinStore × Nat :=
  if !supportsPINAPI config then (.error .unsupportedProtocol, st, 0)
  else
    let genParams := { params with amount := if config.requiresAmount then params.amount else none }
    match generateAndSendPIN config operator genParams now upstream st with
    | (.ok r, st2, n) =>
      if r.success then
        (.ok { success := true, action := some (str "AWAIT_PIN_ENTRY"), expiresIn := some 120 },
          st2, n)
      else (.error .pinGenerationFailed, st2, n)
    | (.error e, st2, n) => (.error e, st2, n)

/-- FlowManager.handleFraudPreventionFlow (src/services/flows/FlowManager.js
lines 172-187): without a fraud token, return the `LOAD_FRAUD_SCRIPT`
instruction without touching the upstream gateway; with one, run the PIN
subscription flow. -/
def handleFraudPreventionFlow (config : OperatorConfig) (operator : Str)
    (params : FlowParams) (now : Nat) (upstream : Upstream) (st : PinStore) :
    Except FlowError FlowResult × PinStore × Nat :=
  if !strTruthy params.fraud_token then
    (.ok { success := false, action := some (str "LOAD_FRAUD_SCRIPT"),
           fraudScriptRequired := true }, st, 0)
  else
    executeSubscriptionFlow config operator params now upstream st

/-- A webhook notification body. -/
structure Notification where
  success : Option SuccessData := none
  error : Option ErrorData := none
  deriving DecidableEq, Repr

/-- WebhookHandler.extractOperator (src/services/api/WebhookHandler.js lines
326-330): `notification.success?.operator || notification.error?.operator`. -/
def extractOperator (n : Notification) : Option Str :=
  jsOrOpt (n.success.bind (·.operator)) (n.error.bind (·.operator))

/-- Event type extraction in processWebhook (line 112). -/
def notifType (n : Notification) : Option Str :=
  jsOrOpt (n.success.bind (·.type)) (n.error.bind (·.type))

/-- Transaction status extraction in processWebhook (line 113). -/
def notifStatus (n : Notification) : Option Str :=
  jsOrOpt (n.success.bind (fun s => s.transaction.bind (·.status)))
    (n.error.bind (fun e => e.transaction.bind (·.status)))

/-- WebhookHandler.isUKOperator (lines 335-337). -/
def isUKOperator (operator : Str) : Bool :=
  [str "vodafone-uk", str "three-uk", str "o2-uk", str "ee-uk"].contains operator

/-- Invocation of a registered webhook callback when its key is present
(the pattern used by every specific handler and by executeCallbacks): the
returned list records the key of the callback that fired. -/
def callbackInvocation (callbacks : List Str) (key : Str) : List Str :=
  if callbacks.contains key then [key] else []

/-- WebhookHandler.handleUKSubscriptionCreated (lines 156-181): when a flow
reference exists under the notification correlator it is updated and then
removed; afterwards the registered subscription-created callback is invoked
unconditionally (the invocation is outside the flow-reference guard).  The
returned list records the callback invocations of this handler. -/
def handleUKSubscriptionCreated (flows : FlowStore) (callbacks : List Str)
    (operator : Str) (s : SuccessData) : FlowStore × List Str :=
  let flows2 :=
    match getFlowReference flows operator s.correlator with
    | some _ => clearFlowReference flows operator s.correlator
    | none => flows
  (flows2, callbackInvocation callbacks (operator ++ str "_subscription_created"))

/-- WebhookHandler.handleAxiataAsyncCompletion (lines 211-225): resolve and
remove the flow reference stored under the transaction id. -/
def handleAxiataAsyncCompletion (flows : FlowStore) (operator : Str)
    (s : SuccessData) : FlowStore :=
  match getFlowReference flows operator s.transaction_id with
  | some _ => clearFlowReference flows operator s.transaction_id
  | none => flows

/-- Errors thrown while processing a webhook. -/
inductive WebhookError where
  /-- Thrown message: Operator not identified in webhook. -/
  | operatorNotIdentified
  deriving DecidableEq, Repr

/-- WebhookHandler.processWebhook (lines 103-149): after the notification
summary is built (which throws when the notification carries no operator),
dispatch on operator family and notification type and status, and finally run
executeCallbacks for the generic and wildcard keys.  The result is the flow
store after processing together with the ordered list of callback keys
invoked. -/
def processWebhook (flows : FlowStore) (callbacks : List Str) (operator : Str)
    (n : Notification) : Except WebhookError (FlowStore × List Str) :=
  if !strTruthy (extractOperator n) then .error .operatorNotIdentified
  else
    let type := notifType n
    let status := notifStatus n
    let ukStep : FlowStore × List Str :=
      if isUKOperator operator && type == some (str "subscription") && n.success.isSome then
        match n.success with
        | some s => handleUKSubscriptionCreated flows callbacks operator s
        | none => (flows, [])
      else (flows, [])
    let flows1 := ukStep.1
    let inv1 := ukStep.2
    let inv2 :=
      if strStartsWith operator (str "zain-") && status == some (str "SUSPENDED") then
        callbackInvocation callbacks (operator ++ str "_subscription_suspended")
      else []
    let flows2 :=
      if operator == str "axiata-lk" && n.success.isSome then
        match n.success with
        | some s => handleAxiataAsyncCompletion flows1 operator s
        | none => flows1
      else flows1
    let inv3 :=
      if type == some (str "subscription") && status == some (str "CHARGED") &&
          (n.success.bind (·.mode)) == some (str "RENEWAL") then
        callbackInvocation callbacks (operator ++ str "_subscription_renewed")
      else []
    let inv4 :=
      if status == some (str "INSUFFICIENT_FUNDS") || status == some (str "FAILED") then
        callbackInvocation callbacks (operator ++ str "_payment_failed")
      else []
    let inv5 :=
      if status == some (str "DELETED") || status == some (str "REMOVED") then
        callbackInvocation callbacks (operator ++ str "_subscription_deleted")
      else []
    let inv6 :=
      callbackInvocation callbacks (operator ++ str "_" ++ type.getD (str "undefined")) ++
      callbackInvocation callbacks (operator ++ str "_*")
    .ok (flows2, inv1 ++ inv2 ++ inv3 ++ inv4 ++ inv5 ++ inv6)

/-- Two deliveries of the same notification in sequence, threading the flow
store; returns the final store and both invocation lists when neither
delivery throws. -/
def processWebhookTwice (flows : FlowStore) (callbacks : List Str)
    (operator : Str) (n : Notification) : Option (FlowStore × List Str × List Str) :=
  match processWebhook flows callbacks operator n with
  | .ok (f1, i1) =>
    match processWebhook f1 callbacks operator n with
    | .ok (f2, i2) => some (f2, i1, i2)
    | .error _ => none
  | .error _ => none

theorem strStartsWith_append_self (p t : Str) : strStartsWith (p ++ t) p = true := by
  unfold strStartsWith
  rw [List.isPrefixOf_iff_prefix]
  exact List.prefix_append p t

theorem normalizeToken_startsWith (t : Str) :
    strStartsWith (normalizeToken t) (str "TOKEN:") = true := by
  unfold normalizeToken
  split
  · assumption
  · exact strStartsWith_append_self _ _

theorem normalizeToken_idem (t : Str) :
    normalizeToken (normalizeToken t) = normalizeToken t := by
  have h := normalizeToken_startsWith t
  rw [show normalizeToken (normalizeToken t) =
    (if strStartsWith (normalizeToken t) (str "TOKEN:") then normalizeToken t
     else str "TOKEN:" ++ normalizeToken t) from rfl, h]
  simp

theorem completeCheckoutSubscription_found (config : OperatorConfig)
    (st : SessionStore) (t sid : Str) (s : CheckoutSession) (u : Upstream)
    (hget : getCheckoutSession st sid = some s) :
    completeCheckoutSubscription config st t sid u =
      let req : SubscriptionParams :=
        { msisdn := normalizeToken t, campaign := s.campaign, merchant := s.merchant
          language := jsOrDefault s.language (str "en"), trial := s.trial }
      match u with
      | .thrown m => ⟨.error (.upstreamThrown m), st, some req, false⟩
      | .resp r =>
        if r.success then ⟨.ok r, clearCheckoutSession st sid, some req, !config.noSMS⟩
        else ⟨.ok r, st, some req, false⟩ := by
  unfold completeCheckoutSubscription
  rw [hget]

theorem completeCheckoutSubscription_absent (config : OperatorConfig)
    (st : SessionStore) (t sid : Str) (u : Upstream)
    (hget : getCheckoutSession st sid = none) :
    completeCheckoutSubscription config st t sid u =
      ⟨.error .sessionNotFound, st, none, false⟩ := by
  unfold completeCheckoutSubscription
  rw [hget]

theorem completeCheckoutCharge_found (st : SessionStore) (t sid : Str)
    (s : CheckoutSession) (u : Upstream)
    (hget : getCheckoutSession st sid = some s) :
    completeCheckoutCharge st t sid u =
      let req : SubscriptionParams :=
        { msisdn := normalizeToken t, campaign := s.campaign, merchant := s.merchant
          language := jsOrDefault s.language (str "en")
          amount := s.amount, currency := s.currency }
      match u with
      | .thrown m => ⟨.error (.upstreamThrown m), st, some req, false⟩
      | .resp r =>
        if r.success then ⟨.ok r, clearCheckoutSession st sid, some req, false⟩
        else ⟨.ok r, st, some req, false⟩ := by
  unfold completeCheckoutCharge
  rw [hget]

/-- Conclusion of the claim that a checkout session is consumed exactly once:
the first successful exchange returns the upstream response and deletes the
session, and a second call on the same session id throws the
session-not-found error without reaching the upstream gateway. -/
def SingleConsumptionPost (config : OperatorConfig) (st : SessionStore)
    (t t2 sid : Str) (r : ApiResponse) (u2 : Upstream) : Prop :=
  (completeCheckoutSubscription config st t sid (.resp r)).outcome = .ok r ∧
  getCheckoutSession (completeCheckoutSubscription config st t sid (.resp r)).store sid = none ∧
  (completeCheckoutSubscription config
    (completeCheckoutSubscription config st t sid (.resp r)).store t2 sid u2).outcome =
      .error .sessionNotFound ∧
  (completeCheckoutSubscription config
    (completeCheckoutSubscription config st t sid (.resp r)).store t2 sid u2).request = none ∧
  (completeCheckoutSubscription config
    (completeCheckoutSubscription config st t sid (.resp r)).store t2 sid u2).store =
      (completeCheckoutSubscription config st t sid (.resp r)).store

/-- C5 (confirmed): after one successful token exchange via
completeCheckoutSubscription, the session is deleted, and a second call with
the same session id fails with the session-not-found error without touching
the upstream gateway or the store. -/
theorem session_single_consumption (config : OperatorConfig) (st : SessionStore)
    (t t2 sid : Str) (s : CheckoutSession) (r : ApiResponse) (u2 : Upstream)
    (hget : getCheckoutSession st sid = some s) (hsucc : r.success = true) :
    SingleConsumptionPost config st t t2 sid r u2 := by
  have h1 := completeCheckoutSubscription_found config st t sid s (.resp r) hget
  simp only [hsucc, if_true] at h1
  have hstore : (completeCheckoutSubscription config st t sid (.resp r)).store =
      clearCheckoutSession st sid := by rw [h1]
  have hnone : getCheckoutSession (clearCheckoutSession st sid) sid = none :=
    mapGet_del_same st sid
  have h2 := completeCheckoutSubscription_absent config (clearCheckoutSession st sid)
    t2 sid u2 hnone
  refine ⟨by rw [h1], by rw [hstore]; exact hnone, ?_, ?_, ?_⟩
  · rw [hstore, h2]
  · rw [hstore, h2]
  · rw [hstore, h2]

/-- C5 witness: the single-consumption property at a concrete session. -/
theorem session_single_consumption_witness :
    SingleConsumptionPost { flow := str "checkout" }
      [(str "sess-1", mkCheckoutSession (str "zain-bh") none none none none none none 0)]
      (str "tok") (str "tok") (str "sess-1") ⟨true, none, none⟩ (.resp ⟨true, none, none⟩) :=
  session_single_consumption _ _ _ _ _
    (mkCheckoutSession (str "zain-bh") none none none none none none 0) _ _
    (by decide) (by decide)

/-- Conclusion of the token-normalization claim: the normalized token always
carries the `TOKEN:` prefix, normalization is idempotent, and on both
checkout completion paths every completion request submitted upstream uses
the normalized token as its subject field. -/
def TokenNormalizationPost (config : OperatorConfig) (st : SessionStore)
    (t sid : Str) (u : Upstream) : Prop :=
  strStartsWith (normalizeToken t) (str "TOKEN:") = true ∧
  normalizeToken (normalizeToken t) = normalizeToken t ∧
  (∀ req, (completeCheckoutSubscription config st t sid u).request = some req →
    req.msisdn = normalizeToken t ∧ strStartsWith req.msisdn (str "TOKEN:") = true) ∧
  (completeCheckoutSubscription config st t sid u).request.isSome = true ∧
  (∀ req, (completeCheckoutCharge st t sid u).request = some req →
    req.msisdn = normalizeToken t ∧ strStartsWith req.msisdn (str "TOKEN:") = true) ∧
  (completeCheckoutCharge st t sid u).request.isSome = true

/-- C10 (confirmed): token normalization is total and idempotent, and the
completion request subject begins with the `TOKEN:` prefix on both the
subscription-completion and the charge-completion checkout paths. -/
theorem token_normalization (config : OperatorConfig) (st : SessionStore)
    (t sid : Str) (s : CheckoutSession) (u : Upstream)
    (hget : getCheckoutSession st sid = some s) :
    TokenNormalizationPost config st t sid u := by
  have hsub := completeCheckoutSubscription_found config st t sid s u hget
  have hch := completeCheckoutCharge_found st t sid s u hget
  have hmsub : (completeCheckoutSubscription config st t sid u).request = some
      { msisdn := normalizeToken t, campaign := s.campaign, merchant := s.merchant
        language := jsOrDefault s.language (str "en"), trial := s.trial } := by
    rw [hsub]
    cases u with
    | thrown m => rfl
    | resp r => cases hr : r.success <;> simp [hr]
  have hmch : (completeCheckoutCharge st t sid u).request = some
      { msisdn := normalizeToken t, campaign := s.campaign, merchant := s.merchant
        language := jsOrDefault s.language (str "en")
        amount := s.amount, currency := s.currency } := by
    rw [hch]
    cases u with
    | thrown m => rfl
    | resp r => cases hr : r.success <;> simp [hr]
  refine ⟨normalizeToken_startsWith t, normalizeToken_idem t, ?_, ?_, ?_, ?_⟩
  · intro req hreq
    rw [hmsub] at hreq
    cases hreq
    exact ⟨rfl, normalizeToken_startsWith t⟩
  · rw [hmsub]; rfl
  · intro req hreq
    rw [hmch] at hreq
    cases hreq
    exact ⟨rfl, normalizeToken_startsWith t⟩
  · rw [hmch]; rfl

/-- C10 witness: the token-normalization property at a concrete session and a
bare token without the prefix. -/
theorem token_normalization_witness :
    TokenNormalizationPost { flow := str "checkout" }
      [(str "sess-2", mkCheckoutSession (str "zain-bh") none none none none none none 0)]
      (str "abc123") (str "sess-2") (.resp ⟨true, none, none⟩) :=
  token_normalization _ _ _ _
    (mkCheckoutSession (str "zain-bh") none none none none none none 0) _
    (by decide)

/-- C8 (confirmed): for a fraud-prevention operator, initiation without a
fraud token returns normally (no exception) with the `LOAD_FRAUD_SCRIPT`
instruction, leaves the PIN store untouched, and makes no upstream call. -/
theorem fraudFlow_no_token (config : OperatorConfig) (operator : Str)
    (params : FlowParams) (now : Nat) (u : Upstream) (st : PinStore)
    (h : strTruthy params.fraud_token = false) :
    handleFraudPreventionFlow config operator params now u st =
      (.ok { success := false, action := some (str "LOAD_FRAUD_SCRIPT"),
             fraudScriptRequired := true }, st, 0) := by
  unfold handleFraudPreventionFlow
  rw [h]
  simp

/-- Fixture: capability row of a fraud-prevention operator. -/
def fraudCfg : OperatorConfig :=
  { flow := str "pin_with_fraud_prevention", requiresFraudToken := true }

/-- C8 witness: the fraud-prevention initiation at a concrete operator with
no fraud token supplied. -/
theorem fraudFlow_no_token_witness :
    handleFraudPreventionFlow fraudCfg (str "mobily-sa") {} 0
        (.resp ⟨true, none, none⟩) [] =
      (.ok { success := false, action := some (str "LOAD_FRAUD_SCRIPT"),
             fraudScriptRequired := true }, [], 0) :=
  fraudFlow_no_token _ _ _ _ _ _ (by decide)

/-- Fixture: a checkout session created at time 0 (stored expiry 600000 ms). -/
def sessFixture : CheckoutSession :=
  mkCheckoutSession (str "zain-bh") none none none none none none 0

/-- Fixture: a session store holding only `sessFixture`. -/
def sessStoreFixture : SessionStore :=
  createCheckoutSession [] (str "sess-exp") sessFixture

/-- Fixture: flow reference data as registered for a UK checkout. -/
def ukRefFixture : FlowRef :=
  { type := str "uk_async", expectingWebhook := true }

/-- Fixture: a flow store holding `ukRefFixture` registered at time 0 under
operator vodafone-uk and correlator corr-9 (stored expiry 1800000 ms). -/
def flowStoreFixture : FlowStore :=
  storeFlowReference [] (str "vodafone-uk") (some (str "corr-9")) ukRefFixture 0

/-- Fixture: the flow reference as it sits in `flowStoreFixture`. -/
def storedUkRefFixture : FlowRef :=
  { type := str "uk_async", expectingWebhook := true, operator := str "vodafone-uk",
    createdAt := 0, expiresAt := 30 * 60 * 1000 }

/-- C4 counterexample: at a time at or after the stored expiry (600000 ms for
the session, 1800000 ms for the flow reference) and with no physical cleanup
having run, the lookups still return the entries instead of treating them as
absent, contradicting the claim. -/
theorem expiry_lookup_counterexample :
    sessFixture.expiresAt ≤ 600000 ∧
    getCheckoutSession sessStoreFixture (str "sess-exp") = some sessFixture ∧
    storedUkRefFixture.expiresAt ≤ 1800000 ∧
    getFlowReference flowStoreFixture (str "vodafone-uk") (some (str "corr-9")) =
      some storedUkRefFixture := by
  refine ⟨by decide, by decide, by decide, by decide⟩

/-- Conclusion of the amended C4 claim: lookups return whatever the store
holds regardless of the stored expiry, and an entry becomes absent exactly
when the scheduled cleanup timer has physically removed it. -/
def LookupIgnoresExpiryPost (stc : SessionStore) (sid : Str) (s : CheckoutSession)
    (stf : FlowStore) (op : Str) (k : Option Str) (f : FlowRef) : Prop :=
  getCheckoutSession stc sid = some s ∧
  getCheckoutSession (checkoutCleanupTimer stc sid) sid = none ∧
  getFlowReference stf op k = some f ∧
  getFlowReference (flowCleanupTimer stf op k) op k = none

/-- C4 amended: a stored CheckoutSession or FlowReference whose expiry has
passed is still returned by `getCheckoutSession` / `getFlowReference` as long
as the scheduled timer-based cleanup has not physically removed it; the
stored expiry is never consulted at lookup time, and only the cleanup makes
the entry absent. -/
theorem lookup_ignores_expiry (stc : SessionStore) (sid : Str) (s : CheckoutSession)
    (now : Nat) (stf : FlowStore) (op : Str) (k : Option Str) (f : FlowRef)
    (h1 : mapGet stc sid = some s) (h2 : s.expiresAt ≤ now)
    (h3 : mapGet stf (flowKey op k) = some f) (h4 : f.expiresAt ≤ now) :
    LookupIgnoresExpiryPost stc sid s stf op k f := by
  refine ⟨h1, ?_, h3, mapGet_del_same stf (flowKey op k)⟩
  unfold checkoutCleanupTimer
  rw [h1]
  exact mapGet_del_same stc sid

/-- C4 witness: the amended lookup behaviour at the concrete expired
fixtures, observed at the respective expiry instants. -/
theorem lookup_ignores_expiry_witness :
    LookupIgnoresExpiryPost sessStoreFixture (str "sess-exp") sessFixture
      flowStoreFixture (str "vodafone-uk") (some (str "corr-9")) storedUkRefFixture :=
  lookup_ignores_expiry sessStoreFixture (str "sess-exp") sessFixture 1800000
    flowStoreFixture (str "vodafone-uk") (some (str "corr-9")) storedUkRefFixture
    (by decide) (by decide) (by decide) (by decide)

/-- A sequence of charge-completion attempts threading the PIN store,
recording for each attempt whether the upstream charge call was reached. -/
def chargeAttempts (op m : Str) : List (Nat × Upstream) → PinStore → PinStore × List Bool
  | [], st => (st, [])
  | (t, u) :: rest, st =>
    let c := completeChargeWithPIN st op m t u
    let r := chargeAttempts op m rest c.store
    (r.1, c.completionCalled :: r.2)

theorem completeChargeWithPIN_fail_frame (st : PinStore) (op m : Str)
    (meta : PinMeta) (now : Nat) (u : Upstream)
    (hget : getPINMetadata st m op = some meta) (hexp : now ≤ meta.expiresAt)
    (hfail : isFailedUpstream u = true) :
    (completeChargeWithPIN st op m now u).store = st ∧
    (completeChargeWithPIN st op m now u).completionCalled = true := by
  have hn : ¬ now > meta.expiresAt := not_lt.mpr hexp
  simp only [completeChargeWithPIN, hget, if_neg hn]
  cases u with
  | thrown msg => exact ⟨rfl, rfl⟩
  | resp r =>
    have hr : r.success = false := by
      simpa [isFailedUpstream] using hfail
    simp [hr]

theorem chargeAttempts_fail (op m : Str) (meta : PinMeta) :
    ∀ (l : List (Nat × Upstream)) (st : PinStore),
      getPINMetadata st m op = some meta →
      (∀ x ∈ l, x.1 ≤ meta.expiresAt ∧ isFailedUpstream x.2 = true) →
      chargeAttempts op m l st = (st, List.replicate l.length true) := by
  intro l
  induction l with
  | nil => intro st _ _; rfl
  | cons x rest ih =>
    obtain ⟨t, u⟩ := x
    intro st hget hall
    obtain ⟨hx, hrest⟩ := List.forall_mem_cons.mp hall
    obtain ⟨hst, hcall⟩ :=
      completeChargeWithPIN_fail_frame st op m meta t u hget hx.1 hx.2
    simp only [chargeAttempts, hst, hcall]
    rw [ih st hget hrest]
    simp [List.replicate_succ]

/-- Conclusion of the charge-path frame claim: the charge completion reaches
upstream, leaves the store untouched on a failed upstream outcome (so the
attempt counter is never incremented), only ever leaves the entry unchanged
or deletes it, and any number of failed retries within the window behave
identically, each reaching upstream. -/
def ChargeFramePost (st : PinStore) (op m : Str) (meta : PinMeta) (now : Nat)
    (u : Upstream) : Prop :=
  (completeChargeWithPIN st op m now u).completionCalled = true ∧
  (isFailedUpstream u = true → (completeChargeWithPIN st op m now u).store = st) ∧
  (getPINMetadata (completeChargeWithPIN st op m now u).store m op = some meta ∨
    getPINMetadata (completeChargeWithPIN st op m now u).store m op = none) ∧
  (∀ l : List (Nat × Upstream),
    (∀ x ∈ l, x.1 ≤ meta.expiresAt ∧ isFailedUpstream x.2 = true) →
    chargeAttempts op m l st = (st, List.replicate l.length true))

/-- C9 (confirmed): completeChargeWithPIN never increments the stored
attempt counter: on an existing unexpired PendingCode it reaches the
upstream call, leaves the store unchanged unless the upstream call succeeds
(in which case the entry is deleted), and a caller may retry a failing
charge any number of times within the window, each retry reaching
upstream with the store unchanged. -/
theorem charge_no_attempt_increment (st : PinStore) (op m : Str) (meta : PinMeta)
    (now : Nat) (u : Upstream)
    (hget : getPINMetadata st m op = some meta) (hexp : now ≤ meta.expiresAt) :
    ChargeFramePost st op m meta now u := by
  have hn : ¬ now > meta.expiresAt := not_lt.mpr hexp
  refine ⟨?_, ?_, ?_, fun l hl => chargeAttempts_fail op m meta l st hget hl⟩
  · simp only [completeChargeWithPIN, hget, if_neg hn]
    cases u with
    | thrown msg => rfl
    | resp r => cases hr : r.success <;> simp [hr]
  · intro hfail
    exact (completeChargeWithPIN_fail_frame st op m meta now u hget hexp hfail).1
  · simp only [completeChargeWithPIN, hget, if_neg hn]
    cases u with
    | thrown msg => exact .inl hget
    | resp r =>
      cases hr : r.success
      · simpa [hr] using .inl hget
      · simp only [hr, if_true]
        exact .inr (mapGet_del_same st (pinKey op m))

/-- Fixture: capability row of a PIN-capable operator. -/
def pinCfg : OperatorConfig := { flow := str "checkout_or_pin" }

/-- Fixture: a PIN store holding one code issued at time 0 for subscriber
5551230001 at operator ooredoo-kw (stored expiry 120000 ms, zero attempts). -/
def pinStoreFixture : PinStore :=
  storePINMetadata [] (str "5551230001") (str "ooredoo-kw") (mkPinMetadata 0)

/-- C9 witness: the charge-path frame property at the concrete fixture with a
failed upstream charge. -/
theorem charge_no_attempt_increment_witness :
    ChargeFramePost pinStoreFixture (str "ooredoo-kw") (str "5551230001")
      (mkPinMetadata 0) 5000 (.resp ⟨false, none, none⟩) :=
  charge_no_attempt_increment pinStoreFixture (str "ooredoo-kw") (str "5551230001")
    (mkPinMetadata 0) 5000 (.resp ⟨false, none, none⟩) (by decide) (by decide)

theorem completeSubscriptionWithPIN_step (config : OperatorConfig) (st : PinStore)
    (op m : Str) (meta : PinMeta) (now : Nat) (u : Upstream)
    (hget : getPINMetadata st m op = some meta) (hexp : now ≤ meta.expiresAt)
    (hlt : meta.attempts + 1 ≤ 3) (hfail : isFailedUpstream u = true) :
    (completeSubscriptionWithPIN config st op m now u).completionCalled = true ∧
    getPINMetadata (completeSubscriptionWithPIN config st op m now u).store m op =
      some { meta with attempts := meta.attempts + 1 } := by
  have hn : ¬ now > meta.expiresAt := not_lt.mpr hexp
  have h3 : ¬ meta.attempts + 1 > 3 := not_lt.mpr hlt
  simp only [completeSubscriptionWithPIN, hget, if_neg hn, if_neg h3]
  cases u with
  | thrown msg =>
    refine ⟨by trivial, ?_⟩
    exact mapGet_set_same _ _ _
  | resp r =>
    have hr : r.success = false := by
      simpa [isFailedUpstream] using hfail
    simp only [hr, Bool.false_eq_true, if_false]
    refine ⟨by trivial, ?_⟩
    exact mapGet_set_same _ _ _

theorem completeSubscriptionWithPIN_exhaust (config : OperatorConfig) (st : PinStore)
    (op m : Str) (meta : PinMeta) (now : Nat) (u : Upstream)
    (hget : getPINMetadata st m op = some meta) (hexp : now ≤ meta.expiresAt)
    (h3 : meta.attempts + 1 > 3) :
    (completeSubscriptionWithPIN config st op m now u).outcome =
      .error .attemptsExhausted ∧
    (completeSubscriptionWithPIN config st op m now u).completionCalled = false ∧
    getPINMetadata (completeSubscriptionWithPIN config st op m now u).store m op = none := by
  have hn : ¬ now > meta.expiresAt := not_lt.mpr hexp
  simp only [completeSubscriptionWithPIN, hget, if_neg hn, if_pos h3]
  refine ⟨by trivial, by trivial, ?_⟩
  exact mapGet_del_same _ _

/-- Conclusion of the attempt-budget claim: with an unexpired PendingCode and
three failed verification attempts, each of the first three calls reaches the
upstream completion call, and the fourth call fails with the
attempts-exhausted error without contacting upstream (whatever its upstream
oracle would have answered) and deletes the entry. -/
def AttemptBudgetPost (config : OperatorConfig) (st : PinStore) (op m : Str)
    (t1 t2 t3 t4 : Nat) (u1 u2 u3 u4 : Upstream) : Prop :=
  let c1 := completeSubscriptionWithPIN config st op m t1 u1
  let c2 := completeSubscriptionWithPIN config c1.store op m t2 u2
  let c3 := completeSubscriptionWithPIN config c2.store op m t3 u3
  let c4 := completeSubscriptionWithPIN config c3.store op m t4 u4
  c1.completionCalled = true ∧ c2.completionCalled = true ∧ c3.completionCalled = true ∧
  c4.completionCalled = false ∧ c4.outcome = .error .attemptsExhausted ∧
  getPINMetadata c4.store m op = none

/-- C2 (confirmed): starting from an unexpired PendingCode with attempt count
zero, three failed verification attempts each reach the upstream call, and
the fourth attempt fails with the attempts-exhausted error without contacting
upstream regardless of the supplied code, deleting the entry. -/
theorem pin_attempt_budget (config : OperatorConfig) (st : PinStore) (op m : Str)
    (meta : PinMeta) (t1 t2 t3 t4 : Nat) (u1 u2 u3 u4 : Upstream)
    (hget : getPINMetadata st m op = some meta) (h0 : meta.attempts = 0)
    (he1 : t1 ≤ meta.expiresAt) (he2 : t2 ≤ meta.expiresAt)
    (he3 : t3 ≤ meta.expiresAt) (he4 : t4 ≤ meta.expiresAt)
    (hf1 : isFailedUpstream u1 = true) (hf2 : isFailedUpstream u2 = true)
    (hf3 : isFailedUpstream u3 = true) :
    AttemptBudgetPost config st op m t1 t2 t3 t4 u1 u2 u3 u4 := by
  have s1 := completeSubscriptionWithPIN_step config st op m meta t1 u1 hget he1
    (by omega) hf1
  have s2 := completeSubscriptionWithPIN_step config
    (completeSubscriptionWithPIN config st op m t1 u1).store op m
    { meta with attempts := meta.attempts + 1 } t2 u2 s1.2 he2
    (by show meta.attempts + 1 + 1 ≤ 3; omega) hf2
  have s3 := completeSubscriptionWithPIN_step config
    (completeSubscriptionWithPIN config
      (completeSubscriptionWithPIN config st op m t1 u1).store op m t2 u2).store op m
    { meta with attempts := meta.attempts + 1 + 1 } t3 u3 s2.2 he3
    (by show meta.attempts + 1 + 1 + 1 ≤ 3; omega) hf3
  have s4 := completeSubscriptionWithPIN_exhaust config
    (completeSubscriptionWithPIN config
      (completeSubscriptionWithPIN config
        (completeSubscriptionWithPIN config st op m t1 u1).store op m t2 u2).store
      op m t3 u3).store op m
    { meta with attempts := meta.attempts + 1 + 1 + 1 } t4 u4 s3.2 he4
    (by show meta.attempts + 1 + 1 + 1 + 1 > 3; omega)
  exact ⟨s1.1, s2.1, s3.1, s4.2.1, s4.1, s4.2.2⟩

/-- C2 witness: the attempt-budget property at a concrete PendingCode with
two wrong-code attempts, a third failed attempt, and a fourth attempt whose
upstream oracle would have succeeded (the correct code), which still fails
with the attempts-exhausted error. -/
theorem pin_attempt_budget_witness :
    AttemptBudgetPost pinCfg pinStoreFixture (str "ooredoo-kw") (str "5551230001")
      1000 2000 3000 4000 (.resp ⟨false, none, none⟩) (.resp ⟨false, none, none⟩)
      (.thrown (str "http 500")) (.resp ⟨true, none, none⟩) :=
  pin_attempt_budget pinCfg pinStoreFixture (str "ooredoo-kw") (str "5551230001")
    (mkPinMetadata 0) 1000 2000 3000 4000 (.resp ⟨false, none, none⟩)
    (.resp ⟨false, none, none⟩) (.thrown (str "http 500")) (.resp ⟨true, none, none⟩)
    (by decide) (by decide) (by decide) (by decide) (by decide) (by decide)
    (by decide) (by decide) (by decide)

/-- Conclusion of the amended expiry claim: strictly after the stored expiry,
subscription verification fails with the code-expired error without reaching
upstream and deletes the entry, so any later subscription verification fails
with the no-pending-code error; charge verification fails with the combined
expired-or-not-found error without reaching upstream but retains the entry
unchanged. -/
def PinExpiryPost (config : OperatorConfig) (st : PinStore) (op m : Str)
    (now : Nat) (u : Upstream) : Prop :=
  (completeSubscriptionWithPIN config st op m now u).outcome = .error .codeExpired ∧
  (completeSubscriptionWithPIN config st op m now u).completionCalled = false ∧
  getPINMetadata (completeSubscriptionWithPIN config st op m now u).store m op = none ∧
  (∀ (now2 : Nat) (u2 : Upstream),
    (completeSubscriptionWithPIN config
      (completeSubscriptionWithPIN config st op m now u).store op m now2 u2).outcome =
        .error .noPendingCode) ∧
  (completeChargeWithPIN st op m now u).outcome = .error .pinExpiredOrNotFound ∧
  (completeChargeWithPIN st op m now u).completionCalled = false ∧
  (completeChargeWithPIN st op m now u).store = st

/-- C1 amended: for a PendingCode with stored expiry E, any verification
attempt at a time strictly greater than E fails without reaching upstream; on
the subscription path the error is code-expired, the entry is deleted and a
later attempt fails no-pending-code; on the charge path the error is the
combined expired-or-not-found error and the entry is retained. -/
theorem pin_expiry_strict (config : OperatorConfig) (st : PinStore) (op m : Str)
    (meta : PinMeta) (now : Nat) (u : Upstream)
    (hget : getPINMetadata st m op = some meta) (hexp : meta.expiresAt < now) :
    PinExpiryPost config st op m now u := by
  have hn : now > meta.expiresAt := hexp
  have hsub : completeSubscriptionWithPIN config st op m now u =
      ⟨.error .codeExpired, clearPINMetadata st m op, false, false⟩ := by
    simp [completeSubscriptionWithPIN, hget, if_pos hn]
  have hnone : getPINMetadata (clearPINMetadata st m op) m op = none :=
    mapGet_del_same _ _
  refine ⟨by rw [hsub], by rw [hsub], by rw [hsub]; exact hnone, ?_, ?_, ?_, ?_⟩
  · intro now2 u2
    rw [hsub]
    simp [completeSubscriptionWithPIN, hnone]
  · simp [completeChargeWithPIN, hget, if_pos hn]
  · simp [completeChargeWithPIN, hget, if_pos hn]
  · simp [completeChargeWithPIN, hget, if_pos hn]

/-- C1 witness: the amended expiry behaviour at a concrete PendingCode issued
at time 0, verified one millisecond after the 120-second window. -/
theorem pin_expiry_strict_witness :
    PinExpiryPost pinCfg pinStoreFixture (str "ooredoo-kw") (str "5551230001")
      120001 (.resp ⟨true, none, none⟩) :=
  pin_expiry_strict pinCfg pinStoreFixture (str "ooredoo-kw") (str "5551230001")
    (mkPinMetadata 0) 120001 (.resp ⟨true, none, none⟩) (by decide) (by decide)

/-- C1 counterexample: the claim requires failure at any time at or after
T plus 120 seconds, but at exactly T plus 120000 milliseconds the code is
still accepted and the upstream call is reached on the subscription path; and
on the charge path a genuinely expired attempt leaves the entry present in
subsequent lookups instead of deleting it. -/
theorem pin_expiry_boundary_counterexample :
    (completeSubscriptionWithPIN pinCfg pinStoreFixture (str "ooredoo-kw")
      (str "5551230001") 120000 (.resp ⟨true, none, none⟩)).completionCalled = true ∧
    (completeSubscriptionWithPIN pinCfg pinStoreFixture (str "ooredoo-kw")
      (str "5551230001") 120000 (.resp ⟨true, none, none⟩)).outcome =
        .ok ⟨true, none, none⟩ ∧
    getPINMetadata (completeChargeWithPIN pinStoreFixture (str "ooredoo-kw")
      (str "5551230001") 120001 (.resp ⟨true, none, none⟩)).store
      (str "5551230001") (str "ooredoo-kw") = some (mkPinMetadata 0) :=
  ⟨rfl, rfl, by decide⟩

theorem zainStatusRewrite_msisdn (config : OperatorConfig) (s : SuccessData) :
    (zainStatusRewrite config s).msisdn = s.msisdn := by
  unfold zainStatusRewrite
  repeat' split
  all_goals rfl

theorem zainStatusRewrite_of (config : OperatorConfig) (s : SuccessData)
    (t : Transaction) (hcfg : config.statusResponse = some (str "SUCCESS"))
    (htr : s.transaction = some t) (hts : t.status = some (str "SUCCESS")) :
    zainStatusRewrite config s =
      { s with transaction := some { t with status := some (str "CHARGED") },
               originalStatus := some (str "SUCCESS") } := by
  unfold zainStatusRewrite
  rw [if_pos hcfg, htr]
  simp [hts]

theorem zainStatusRewrite_skip (config : OperatorConfig) (s : SuccessData)
    (t : Transaction) (htr : s.transaction = some t)
    (hts : ¬ t.status = some (str "SUCCESS")) :
    zainStatusRewrite config s = s := by
  unfold zainStatusRewrite
  split
  · rw [htr]
    simp [hts]
  · rfl

theorem acrMark_data (config : OperatorConfig) (n : Normalized) :
    (acrMark config n).data = n.data := by
  unfold acrMark
  repeat' split
  all_goals rfl

theorem acrMark_originalStatus (config : OperatorConfig) (n : Normalized) :
    (acrMark config n).data.originalStatus = n.data.originalStatus := by
  rw [acrMark_data]

theorem acrMark_of (config : OperatorConfig) (n : Normalized) (m : Str)
    (hacr : config.usesACR = true) (hm : n.data.msisdn = some m)
    (hpre : strStartsWith m (str "telenor-") = true) :
    acrMark config n =
      { n with hasACR := true, acr := some m,
               acrIdentifier := some (extractACRIdentifier m) } := by
  have hne : m.isEmpty = false := by
    have hp : (str "telenor-") <+: m := by
      have := hpre
      unfold strStartsWith at this
      exact List.isPrefixOf_iff_prefix.mp this
    cases m with
    | nil =>
      have := hp.length_le
      simp [str] at this
    | cons c rest => rfl
  have htr : strTruthy n.data.msisdn = true := by
    rw [hm]
    simp [strTruthy, hne]
  unfold acrMark
  rw [hm] at htr ⊢
  simp only [hacr, htr, Bool.and_self, if_true, hpre]

theorem asyncMark_data (config : OperatorConfig) (n : Normalized) :
    (asyncMark config n).data = n.data := by
  unfold asyncMark
  split <;> rfl

theorem asyncMark_hasACR (config : OperatorConfig) (n : Normalized) :
    (asyncMark config n).hasACR = n.hasACR := by
  unfold asyncMark
  split <;> rfl

theorem asyncMark_acr (config : OperatorConfig) (n : Normalized) :
    (asyncMark config n).acr = n.acr := by
  unfold asyncMark
  split <;> rfl

theorem asyncMark_acrIdentifier (config : OperatorConfig) (n : Normalized) :
    (asyncMark config n).acrIdentifier = n.acrIdentifier := by
  unfold asyncMark
  split <;> rfl

theorem handleSuccessResponse_data (config : OperatorConfig) (op : Str)
    (s : SuccessData) (rt : Option Str) :
    (handleSuccessResponse config op s rt).data = zainStatusRewrite config s := by
  unfold handleSuccessResponse
  rw [asyncMark_data, acrMark_data]

/-- The success payload as it leaves the gateway rewrite: the transaction
status replaced by the canonical CHARGED term, nothing else changed. -/
def chargedRewrite (s : SuccessData) (t : Transaction) : SuccessData :=
  { s with transaction := some { t with status := some (str "CHARGED") } }

theorem handleResponse_rewrite (config : OperatorConfig) (raw : RawResponse)
    (s : SuccessData) (t : Transaction)
    (hcfg : config.statusResponse = some (str "SUCCESS"))
    (hrs : raw.success = some s) (htr : s.transaction = some t)
    (hts : t.status = some (str "SUCCESS")) :
    handleResponse config raw =
      { raw with success := some (chargedRewrite s t) } := by
  unfold handleResponse
  rw [if_pos hcfg, hrs]
  simp [htr, hts, chargedRewrite]

/-- Fixture: capability row of an operator with the alternate success
vocabulary (statusResponse SUCCESS). -/
def zainCfg : OperatorConfig :=
  { flow := str "checkout", statusResponse := some (str "SUCCESS") }

/-- Fixture: a raw upstream success payload whose transaction status is the
alternate SUCCESS term. -/
def rawSuccessFixture : RawResponse :=
  { success := some { transaction := some { status := some (str "SUCCESS") } } }

/-- C6 counterexample: on the end-to-end path, where the raw response first
passes through the gateway handleResponse and is then normalized, the
canonical status is CHARGED but the original SUCCESS value is NOT retained in
the side metadata field, contradicting the claim for this path. -/
theorem statusRewrite_counterexample :
    statusOfProcessed
      (processResponse zainCfg (str "zain-bh") (handleResponse zainCfg rawSuccessFixture) none) =
      some (some (str "CHARGED")) ∧
    originalStatusOfProcessed
      (processResponse zainCfg (str "zain-bh") (handleResponse zainCfg rawSuccessFixture) none) =
      some none :=
  ⟨rfl, rfl⟩

/-- Conclusion of the amended C6 claim: direct normalization of a raw payload
rewrites SUCCESS to CHARGED and retains the original in `_originalStatus`,
while on the end-to-end path through the gateway handleResponse the status is
already rewritten before normalization and no original value is retained. -/
def StatusRewritePost (config : OperatorConfig) (op : Str) (s : SuccessData)
    (rt : Option Str) (raw : RawResponse) : Prop :=
  (handleSuccessResponse config op s rt).data.transaction.bind (·.status) =
    some (str "CHARGED") ∧
  (handleSuccessResponse config op s rt).data.originalStatus = some (str "SUCCESS") ∧
  statusOfProcessed (processResponse config op (handleResponse config raw) rt) =
    some (some (str "CHARGED")) ∧
  originalStatusOfProcessed (processResponse config op (handleResponse config raw) rt) =
    some none

/-- C6 amended: for an operator whose capability marks the alternate success
vocabulary, direct normalization of a SUCCESS payload yields canonical status
CHARGED with the original retained in `_originalStatus`; but when the raw
response first passes through the gateway handleResponse, the status reaches
the normalizer already rewritten to CHARGED and the original SUCCESS value is
not retained anywhere in the result. -/
theorem statusRewrite_amended (config : OperatorConfig) (op : Str)
    (s : SuccessData) (t : Transaction) (rt : Option Str) (raw : RawResponse)
    (hcfg : config.statusResponse = some (str "SUCCESS"))
    (htr : s.transaction = some t) (hts : t.status = some (str "SUCCESS"))
    (horig : s.originalStatus = none)
    (hrs : raw.success = some s) (hre : raw.error = none) :
    StatusRewritePost config op s rt raw := by
  have hdir := handleSuccessResponse_data config op s rt
  have hzr := zainStatusRewrite_of config s t hcfg htr hts
  have hgw := handleResponse_rewrite config raw s t hcfg hrs htr hts
  have hchg : ¬ (some (str "CHARGED") : Option Str) = some (str "SUCCESS") := by decide
  have hskip : zainStatusRewrite config (chargedRewrite s t) = chargedRewrite s t :=
    zainStatusRewrite_skip config _ { t with status := some (str "CHARGED") } rfl
      (by simpa using hchg)
  refine ⟨?_, ?_, ?_, ?_⟩
  · rw [hdir, hzr]
    rfl
  · rw [hdir, hzr]
  · rw [hgw]
    simp only [processResponse, statusOfProcessed, hre]
    rw [handleSuccessResponse_data, hskip]
    rfl
  · rw [hgw]
    simp only [processResponse, originalStatusOfProcessed, hre]
    rw [handleSuccessResponse_data, hskip]
    simpa [chargedRewrite] using horig

/-- C6 witness: the amended status-rewrite behaviour at the concrete Zain
fixture payload. -/
theorem statusRewrite_amended_witness :
    StatusRewritePost zainCfg (str "zain-bh")
      { transaction := some { status := some (str "SUCCESS") } } none rawSuccessFixture :=
  statusRewrite_amended zainCfg (str "zain-bh")
    { transaction := some { status := some (str "SUCCESS") } }
    { status := some (str "SUCCESS") } none rawSuccessFixture
    (by decide) (by decide) (by decide) (by decide) (by decide) (by decide)

theorem extractACRIdentifier_split (p q : Str) (hp : ':' ∉ p) :
    extractACRIdentifier (p ++ ':' :: q) =
      (q.takeWhile (fun c => !(c == ':'))).take 30 := by
  unfold extractACRIdentifier
  rw [jsSplit_append ':' p q hp]
  rcases hq : jsSplit ':' q with _ | ⟨h, tl⟩
  · exact absurd hq (jsSplit_ne_nil ':' q)
  · have hh := jsSplit_head ':' q
    rw [hq] at hh
    simp only [List.head?, Option.some_inj] at hh
    simp [hh]

theorem extractACRIdentifier_no_colon (s : Str) (h : ':' ∉ s) :
    extractACRIdentifier s = s := by
  unfold extractACRIdentifier
  rw [jsSplit_sep_free ':' s h]

/-- The claimed extraction rule, written from the claim wording: the first 30
characters after the colon separator (everything following the first colon,
truncated to 30 characters).  Kept separate from `extractACRIdentifier`,
which is translated from the source, so the two can be compared. -/
def claimedACRSegment (acr : Str) : Str :=
  ((acr.dropWhile (fun c => !(c == ':'))).drop 1).take 30

/-- Fixture: capability row of an operator using anonymous references. -/
def acrCfg : OperatorConfig := { flow := str "checkout_with_acr", usesACR := true }

/-- Fixture: a success payload whose subject is an anonymous reference
containing a second colon shortly after the first. -/
def acrPayloadFixture : SuccessData := { msisdn := some (str "telenor-a:b:c") }

/-- C7 counterexample: for the anonymous reference telenor-a:b:c the code
extracts the field between the first and second colon (b), not the first 30
characters after the colon separator (b:c), so the claimed extraction rule
does not match the code. -/
theorem acrSegment_counterexample :
    extractACRIdentifier (str "telenor-a:b:c") = str "b" ∧
    claimedACRSegment (str "telenor-a:b:c") = str "b:c" ∧
    (handleSuccessResponse acrCfg (str "telenor-mm") acrPayloadFixture none).acrIdentifier ≠
      some (claimedACRSegment (str "telenor-a:b:c")) := by
  refine ⟨by decide, by decide, by decide⟩

/-- Conclusion of the amended C7 claim: the anonymous-reference flag is set,
the identifier is propagated unchanged into the result (both as the `acr`
field and inside the normalized data), and the extracted identifier segment
is the first 30 characters of the field between the first and second colon
(the whole identifier when it contains no colon). -/
def AcrHandlingPost (config : OperatorConfig) (op : Str) (s : SuccessData)
    (rt : Option Str) (p q : Str) : Prop :=
  (handleSuccessResponse config op s rt).hasACR = true ∧
  (handleSuccessResponse config op s rt).acr = some (p ++ ':' :: q) ∧
  (handleSuccessResponse config op s rt).data.msisdn = some (p ++ ':' :: q) ∧
  (handleSuccessResponse config op s rt).acrIdentifier =
    some ((q.takeWhile (fun c => !(c == ':'))).take 30) ∧
  (∀ m2 : Str, ':' ∉ m2 → extractACRIdentifier m2 = m2)

/-- C7 amended: for a success payload whose subject begins with the
anonymous-reference prefix under a capability using anonymous references, the
normalizer sets the flag and propagates the identifier unchanged, and the
extracted segment is deterministic and equals the first 30 characters of the
field between the first and second colon of the reference (the whole
reference when it has no colon), not of everything after the first colon. -/
theorem acr_handling_amended (config : OperatorConfig) (op : Str)
    (s : SuccessData) (rt : Option Str) (p q : Str)
    (hacr : config.usesACR = true) (hm : s.msisdn = some (p ++ ':' :: q))
    (hpre : strStartsWith (p ++ ':' :: q) (str "telenor-") = true)
    (hp : ':' ∉ p) :
    AcrHandlingPost config op s rt p q := by
  have hdm : (zainStatusRewrite config s).msisdn = some (p ++ ':' :: q) := by
    rw [zainStatusRewrite_msisdn, hm]
  have hmark := acrMark_of config
    { operator := op, type := jsOrOpt s.type rt, data := zainStatusRewrite config s }
    (p ++ ':' :: q) hacr hdm hpre
  have hx := extractACRIdentifier_split p q hp
  refine ⟨?_, ?_, ?_, ?_, fun m2 hm2 => extractACRIdentifier_no_colon m2 hm2⟩
  · unfold handleSuccessResponse
    rw [asyncMark_hasACR, hmark]
  · unfold handleSuccessResponse
    rw [asyncMark_acr, hmark]
  · rw [handleSuccessResponse_data, hdm]
  · unfold handleSuccessResponse
    rw [asyncMark_acrIdentifier, hmark]
    simp [hx]

/-- C7 witness: the amended anonymous-reference handling at the concrete
fixture payload. -/
theorem acr_handling_amended_witness :
    AcrHandlingPost acrCfg (str "telenor-mm") acrPayloadFixture none
      (str "telenor-a") (str "b:c") :=
  acr_handling_amended acrCfg (str "telenor-mm") acrPayloadFixture none
    (str "telenor-a") (str "b:c") (by decide) (by decide) (by decide) (by decide)

/-- Fixture: the success body of a UK subscription-created webhook. -/
def ukNotifSuccess : SuccessData :=
  { type := some (str "subscription"), correlator := some (str "corr-1"),
    operator := some (str "vodafone-uk") }

/-- Fixture: a UK subscription-created webhook notification. -/
def ukNotifFixture : Notification := { success := some ukNotifSuccess }

/-- Fixture: only the subscription-created callback is registered. -/
def ukCallbacks : List Str := [str "vodafone-uk_subscription_created"]

/-- Fixture: a flow store holding the UK flow reference under correlator
corr-1. -/
def ukFlowsFixture : FlowStore :=
  storeFlowReference [] (str "vodafone-uk") (some (str "corr-1")) ukRefFixture 0

/-- C3 counterexample: delivering the same UK subscription-created webhook
twice invokes the registered subscription-created callback once per delivery
(twice in total), because the callback invocation is outside the
flow-reference guard; the claim that the second reconciliation invokes no
completion callback is false. -/
theorem webhook_idempotence_counterexample :
    (processWebhookTwice ukFlowsFixture ukCallbacks (str "vodafone-uk") ukNotifFixture).map
      (fun r => (r.2.1.count (str "vodafone-uk_subscription_created"),
                 r.2.2.count (str "vodafone-uk_subscription_created"))) =
      some (1, 1) := by
  decide

/-- Conclusion of the amended C3 claim: the flow reference is removed on the
first delivery and the second delivery leaves the store unchanged (the
flow-state resolution is idempotent), but the registered subscription-created
callback fires on each delivery. -/
def DuplicateCallbackPost (flows : FlowStore) (cbs : List Str) (op : Str)
    (s : SuccessData) : Prop :=
  handleUKSubscriptionCreated flows cbs op s =
    (clearFlowReference flows op s.correlator, [op ++ str "_subscription_created"]) ∧
  getFlowReference (handleUKSubscriptionCreated flows cbs op s).1 op s.correlator = none ∧
  handleUKSubscriptionCreated (handleUKSubscriptionCreated flows cbs op s).1 cbs op s =
    ((handleUKSubscriptionCreated flows cbs op s).1,
      [op ++ str "_subscription_created"])

/-- C3 amended: reconciling the same UK subscription-created notification
twice is idempotent on the flow-reference store (the reference is removed on
first resolution and the second delivery does not change the store), but the
registered subscription-created completion callback is invoked on every
delivery, hence twice across duplicate deliveries rather than at most once. -/
theorem webhook_duplicate_callback (flows : FlowStore) (cbs : List Str)
    (op : Str) (s : SuccessData) (fr : FlowRef)
    (href : getFlowReference flows op s.correlator = some fr)
    (hcb : cbs.contains (op ++ str "_subscription_created") = true) :
    DuplicateCallbackPost flows cbs op s := by
  have h1 : handleUKSubscriptionCreated flows cbs op s =
      (clearFlowReference flows op s.correlator, [op ++ str "_subscription_created"]) := by
    simp only [handleUKSubscriptionCreated, callbackInvocation, href, hcb, if_true]
  have hnone : getFlowReference (clearFlowReference flows op s.correlator)
      op s.correlator = none := mapGet_del_same _ _
  have h2 : handleUKSubscriptionCreated (clearFlowReference flows op s.correlator)
      cbs op s =
      (clearFlowReference flows op s.correlator, [op ++ str "_subscription_created"]) := by
    simp only [handleUKSubscriptionCreated, callbackInvocation, hnone, hcb, if_true]
  refine ⟨h1, ?_, ?_⟩
  · rw [h1]
    exact hnone
  · rw [h1]
    exact h2

/-- C3 witness: the duplicate-delivery behaviour at the concrete UK webhook
fixture. -/
theorem webhook_duplicate_callback_witness :
    DuplicateCallbackPost ukFlowsFixture ukCallbacks (str "vodafone-uk") ukNotifSuccess :=
  webhook_duplicate_callback ukFlowsFixture ukCallbacks (str "vodafone-uk")
    ukNotifSuccess storedUkRefFixture (by decide) (by decide)

end SLA
